import Mathlib

/-!
Shallow embedding of the outbound voice-call orchestration code
(`voice_backend/outboundService/services/call_service.py` and
`voice_backend/outboundService/services/agent_service.py`).

External services (the media-room provider and the telephony carrier) are
modelled as oracles packaged in an `Env` record: each field fixes the outcome
the external service would return at the corresponding await point.  Side
effects are reified as an explicit event trace, and raised Python exceptions
are modelled with `Except`.
-/

namespace CallService

/-- Module constant `SIP_TRUNK_ID` from call_service.py. -/
def SIP_TRUNK_ID : String := "ST_vEtSehKXAp4d"

/-- Module constant `PARTICIPANT_IDENTITY` from call_service.py. -/
def PARTICIPANT_IDENTITY : String := "sip-caller"

/-- Module constant `PARTICIPANT_NAME` from call_service.py. -/
def PARTICIPANT_NAME : String := "Phone Caller"

/-- Module constant `CALL_TIMEOUT` from call_service.py. -/
def CALL_TIMEOUT : Nat := 60

/-- Room-name generation inside `make_outbound_call`:
`f"outbound-call-\x7btimestamp\x7d-\x7bunique_id\x7d"` where `timestamp` is the
integer wall clock and `unique_id` is `str(uuid.uuid4())[:8]`. -/
def genRoomName (timestamp : Nat) (uniqueId : String) : String :=
  "outbound-call-" ++ toString timestamp ++ "-" ++ uniqueId

/-- The participant record returned by the carrier bridge
(`livekit_api.sip.create_sip_participant`). -/
structure ParticipantInfo where
  participant_id : String
  sip_call_id : String
  room_name : String
deriving DecidableEq

/-- `api.CreateRoomRequest` as built in `make_outbound_call`; metadata is the
JSON object serialized from the Python dict, kept as an association list. -/
structure CreateRoomRequest where
  name : String
  empty_timeout : Nat
  max_participants : Nat
  metadata : List (String × String)
deriving DecidableEq

/-- `CreateSIPParticipantRequest` as built in `make_outbound_call`. -/
structure CreateSIPParticipantRequest where
  sip_trunk_id : String
  sip_call_to : String
  room_name : String
  participant_identity : String
  participant_name : String
  krisp_enabled : Bool
  wait_until_answered : Bool
deriving DecidableEq

/-- Oracle for one invocation of `make_outbound_call`: the wall clock and the
random suffix sampled at name-generation time, and the outcomes the two
external await points would produce.  `sipResult = none` models the carrier
raising (invalid number, misconfigured trunk, no answer within its timeout)
with error text `sipError`; `answerDelay` is the wall-clock time between the
bridge request and the confirmed answer. -/
structure Env where
  timestamp : Nat
  uniqueId : String
  createRoomOk : Bool
  createErr : String
  sipResult : Option ParticipantInfo
  sipError : String
  answerDelay : Nat

/-- Observable side effects of `make_outbound_call`, in program order. -/
inductive Event where
  | createRoom (req : CreateRoomRequest)
  | createRoomFailed (msg : String)
  | sleep (seconds : Nat)
  | bridge (req : CreateSIPParticipantRequest)
  | recordLatency (seconds : Nat)
  | apiClose
deriving DecidableEq

/-- Python truthiness of an optional string (`if user_id:` / `if not room_name:`):
`None` and the empty string are falsy. -/
def pyTruthy : Option String → Bool
  | none => false
  | some s => !(s == "")

/-- Shallow embedding of `make_outbound_call(phone_number, sip_trunk_id,
room_name, user_id)` (call_service.py lines 20-123).  Returns the Python
result — `Except.ok (participant, room_name)` on success, `Except.error e`
when the function re-raises the carrier error — paired with the trace of
external effects.  Room-creation failure is caught and only logged
("Room might already exist, continue anyway"); the bridge error is re-raised
after the `finally` block closes the API handle. -/
def make_outbound_call (env : Env) (phone_number : String) (sip_trunk_id : String)
    (room_name : Option String) (user_id : Option String) :
    Except String (ParticipantInfo × String) × List Event :=
  let rn : String :=
    if pyTruthy room_name then room_name.getD ""
    else genRoomName env.timestamp env.uniqueId
  let room_metadata : List (String × String) :=
    if pyTruthy user_id then
      [("agent_name", "voice-assistant"), ("user_id", user_id.getD "")]
    else [("agent_name", "voice-assistant")]
  let createReq : CreateRoomRequest :=
    { name := rn, empty_timeout := 60, max_participants := 10,
      metadata := room_metadata }
  let createEvents : List Event :=
    if env.createRoomOk then [Event.createRoom createReq]
    else [Event.createRoom createReq, Event.createRoomFailed env.createErr]
  let request : CreateSIPParticipantRequest :=
    { sip_trunk_id := sip_trunk_id, sip_call_to := phone_number,
      room_name := rn, participant_identity := PARTICIPANT_IDENTITY,
      participant_name := PARTICIPANT_NAME, krisp_enabled := true,
      wait_until_answered := true }
  match env.sipResult with
  | some participant =>
      (Except.ok (participant, rn),
       createEvents ++ [Event.sleep 3, Event.bridge request,
         Event.recordLatency env.answerDelay, Event.apiClose])
  | none =>
      (Except.error env.sipError,
       createEvents ++ [Event.sleep 3, Event.bridge request, Event.apiClose])

/-- One entry of the `results` list built by `make_multiple_calls`. -/
structure CallRecord where
  phone_number : String
  status : String
  room : Option String
  participant_id : Option String
  error : Option String
deriving DecidableEq

/-- The `for` loop of `make_multiple_calls` (call_service.py lines 145-169):
the i-th call uses the oracle at index `i`; a raised exception from
`make_outbound_call` is caught and recorded as a failed entry, and the loop
continues with the next number. -/
def make_multiple_calls_loop (oracle : Nat → Env) (sip_trunk_id : String) :
    Nat → List String → List CallRecord
  | _, [] => []
  | i, phone_number :: rest =>
    match (make_outbound_call (oracle i) phone_number sip_trunk_id none none).1 with
    | Except.ok (participant, room) =>
        { phone_number := phone_number, status := "success", room := some room,
          participant_id := some participant.participant_id, error := none } ::
          make_multiple_calls_loop oracle sip_trunk_id (i + 1) rest
    | Except.error e =>
        { phone_number := phone_number, status := "failed", room := none,
          participant_id := none, error := some e } ::
          make_multiple_calls_loop oracle sip_trunk_id (i + 1) rest

/-- Shallow embedding of `make_multiple_calls(phone_numbers, delay_seconds,
sip_trunk_id)` (call_service.py lines 126-182): runs the calls strictly in
order and returns the accumulated `results` list.  `delay_seconds` only
paces the loop (an `asyncio.sleep` between calls) and does not affect the
records. -/
def make_multiple_calls (oracle : Nat → Env) (phone_numbers : List String)
    (delay_seconds : Nat) (sip_trunk_id : String) : List CallRecord :=
  make_multiple_calls_loop oracle sip_trunk_id 0 phone_numbers

/-- Number of carrier bridge requests in an effect trace. -/
def countBridges (trace : List Event) : Nat :=
  trace.countP fun e =>
    match e with
    | Event.bridge _ => true
    | _ => false

end CallService

namespace AgentService

/-- A remote participant of a room, as inspected by `transfer_to_human`. -/
structure Participant where
  identity : String
deriving DecidableEq

/-- The room view available through the job context. -/
structure AgentRoom where
  name : String
  remote_participants : List Participant
deriving DecidableEq

/-- The job context (`get_job_context()`); `none` models the lookup failing. -/
structure JobCtx where
  room : AgentRoom
deriving DecidableEq

/-- State of the external room provider: the set of live room names. -/
structure World where
  rooms : List String
deriving DecidableEq

/-- `api.TransferSIPParticipantRequest` as built in `transfer_to_human`. -/
structure TransferSIPParticipantRequest where
  room_name : String
  participant_identity : String
  transfer_to : String
  play_dialtone : Bool
deriving DecidableEq

/-- The hard-coded transfer target in `transfer_to_human`. -/
def TRANSFER_TO : String := "tel:+919911062767"

/-- The participant scan of `transfer_to_human` (agent_service.py lines
121-125): first remote participant whose identity is the literal
`"sip-caller"`, `none` if there is no such participant. -/
def findSipParticipant (ps : List Participant) : Option Participant :=
  ps.find? fun p => p.identity == "sip-caller"

/-- Shallow embedding of `Assistant.transfer_to_human` (agent_service.py
lines 111-144).  Returns the tool's string result, the list of carrier
transfer requests issued, and the (unchanged) provider state: the body never
calls the room service, so the room is neither destroyed nor closed here.
`transferOk` is the carrier oracle for `transfer_sip_participant`; on carrier
failure the exception is caught and `"error"` returned. -/
def transfer_to_human (jobCtx : Option JobCtx) (transferOk : Bool) (w : World) :
    String × List TransferSIPParticipantRequest × World :=
  match jobCtx with
  | none => ("error", [], w)
  | some ctx =>
    match findSipParticipant ctx.room.remote_participants with
    | none => ("error", [], w)
    | some sip_participant =>
      let req : TransferSIPParticipantRequest :=
        { room_name := ctx.room.name,
          participant_identity := sip_participant.identity,
          transfer_to := TRANSFER_TO, play_dialtone := true }
      if transferOk then ("transferred", [req], w)
      else ("error", [req], w)

/-- The provider's `delete_room`: succeeds and removes the room when it is
live, raises (`Except.error`) when the room is already gone. -/
def delete_room (w : World) (name : String) : Except String World :=
  if name ∈ w.rooms then Except.ok ⟨w.rooms.filter fun r => r != name⟩
  else Except.error "requested room does not exist"

/-- Shallow embedding of `Assistant.end_call` (agent_service.py lines
146-161): deletes the job context's room; any failure of `delete_room` is
caught, logged, and surfaced as the string `"error"` with the provider state
unchanged. -/
def end_call (jobCtx : Option JobCtx) (w : World) : String × World :=
  match jobCtx with
  | none => ("error", w)
  | some ctx =>
    match delete_room w ctx.room.name with
    | Except.ok w2 => ("ended", w2)
    | Except.error _ => ("error", w)

/-- The body of the `try` block of `cleanup_and_save` (agent_service.py lines
202-213): `hist = some turns` models a live session exposing its history,
`none` the guard branch where the session was never created; `fsOk = false`
models the filesystem raising (makedirs / open / json.dump).  On a completed
write the transcript write-count goes up by one. -/
def cleanup_body (hist : Option (List (String × String))) (fsOk : Bool)
    (writes : Nat) : Except String Nat :=
  if fsOk then
    match hist with
    | some _ => Except.ok (writes + 1)
    | none => Except.ok writes
  else Except.error "io error"

/-- Shallow embedding of the shutdown callback `cleanup_and_save`
(agent_service.py lines 201-215): the whole body is wrapped in
`try/except Exception`, so the callback itself never raises.  The result is
`Except.ok (writes, errorLogged)`: the new write-count and whether the
`except` branch logged an error. -/
def cleanup_and_save (hist : Option (List (String × String))) (fsOk : Bool)
    (writes : Nat) : Except String (Nat × Bool) :=
  match cleanup_body hist fsOk writes with
  | Except.ok w => Except.ok (w, false)
  | Except.error _ => Except.ok (writes, true)

end AgentService

open CallService AgentService

/-- Helper: the campaign loop preserves the phone numbers in input order. -/
theorem multiple_calls_loop_map_phone (oracle : Nat → Env) (trunk : String) :
    ∀ (i : Nat) (nums : List String),
      (make_multiple_calls_loop oracle trunk i nums).map
        (fun r => r.phone_number) = nums := by
  intro i nums
  induction nums generalizing i with
  | nil => rfl
  | cons p rest ih =>
    simp only [make_multiple_calls_loop]
    cases h : (make_outbound_call (oracle i) p trunk none none).1 with
    | ok v =>
      obtain ⟨participant, room⟩ := v
      simp [ih]
    | error e =>
      simp [ih]

/-- Helper: every record produced by the campaign loop has status
"success" or "failed". -/
theorem multiple_calls_loop_status (oracle : Nat → Env) (trunk : String) :
    ∀ (i : Nat) (nums : List String),
      (make_multiple_calls_loop oracle trunk i nums).all
        (fun r => r.status == "success" || r.status == "failed") = true := by
  intro i nums
  induction nums generalizing i with
  | nil => rfl
  | cons p rest ih =>
    simp only [make_multiple_calls_loop]
    cases h : (make_outbound_call (oracle i) p trunk none none).1 with
    | ok v =>
      obtain ⟨participant, room⟩ := v
      simp [ih]
    | error e =>
      simp [ih]

/-- C2: for every list of N phone numbers, every delay and every behaviour of
the external services (oracle), `make_multiple_calls` returns exactly N
records, one per input number in input order, each with status "success" or
"failed"; since this holds for every oracle — including oracles failing any
subset of the calls — a single call's failure never aborts the remaining
campaign. -/
theorem campaign_shape (oracle : Nat → Env) (delay : Nat)
    (trunk : String) (nums : List String) :
    (make_multiple_calls oracle nums delay trunk).map
        (fun r => r.phone_number) = nums ∧
    (make_multiple_calls oracle nums delay trunk).length = nums.length ∧
    (make_multiple_calls oracle nums delay trunk).all
        (fun r => r.status == "success" || r.status == "failed") = true := by
  refine ⟨multiple_calls_loop_map_phone oracle trunk 0 nums, ?_, ?_⟩
  · have h := multiple_calls_loop_map_phone oracle trunk 0 nums
    calc (make_multiple_calls oracle nums delay trunk).length
        = ((make_multiple_calls_loop oracle trunk 0 nums).map
            (fun r => r.phone_number)).length := by
          simp [make_multiple_calls]
      _ = nums.length := by rw [h]
  · exact multiple_calls_loop_status oracle trunk 0 nums

/-- C1 (amended): when the carrier bridge request fails, `make_outbound_call`
issues exactly one bridge request (no retry) and re-raises the carrier error
to its caller (`Except.error` with the carrier's error text); the campaign
loop `make_multiple_calls` is the layer that catches it and records a
CallResult with status "failed" carrying that error text. -/
theorem bridge_failure_behavior :
    (∀ (env : Env) (phone trunk : String) (rn uid : Option String),
        env.sipResult = none →
        (make_outbound_call env phone trunk rn uid).1 = Except.error env.sipError ∧
        countBridges (make_outbound_call env phone trunk rn uid).2 = 1) ∧
    (∀ (oracle : Nat → Env) (trunk : String) (i : Nat) (p : String)
        (rest : List String),
        (oracle i).sipResult = none →
        (make_multiple_calls_loop oracle trunk i (p :: rest)).head? =
          some { phone_number := p, status := "failed", room := none,
                 participant_id := none, error := some (oracle i).sipError }) := by
  constructor
  · intro env phone trunk rn uid h
    constructor
    · simp [make_outbound_call, h]
    · cases hc : env.createRoomOk <;>
        simp [make_outbound_call, h, hc, countBridges, List.countP_append,
          List.countP_cons]
  · intro oracle trunk i p rest h
    simp [make_multiple_calls_loop, make_outbound_call, h]

/-- C1 (counterexample to the claim as stated): placing a call to the
malformed number "12345" with the carrier rejecting it makes
`make_outbound_call` itself re-raise the carrier error — the failure IS
propagated as an exception to the caller of `make_outbound_call`, not
returned as a failed CallResult at that level. -/
theorem bridge_failure_counterexample :
    (make_outbound_call
        ⟨1700000000, "1a2b3c4d", true, "", none, "sip status 400: invalid number", 0⟩
        "12345" SIP_TRUNK_ID none none).1 =
      Except.error "sip status 400: invalid number" := by
  rfl

/-- Witness for `bridge_failure_behavior` at a concrete failing carrier. -/
theorem bridge_failure_witness :
    ((make_outbound_call ⟨5, "ffff0000", true, "", none, "trunk misconfigured", 0⟩
        "+3912345" "ST_x" none none).1 = Except.error "trunk misconfigured" ∧
     countBridges (make_outbound_call
        ⟨5, "ffff0000", true, "", none, "trunk misconfigured", 0⟩
        "+3912345" "ST_x" none none).2 = 1) ∧
    (make_multiple_calls_loop
        (fun _ => ⟨5, "ffff0000", true, "", none, "trunk misconfigured", 0⟩)
        "ST_x" 0 ["+3912345"]).head? =
      some { phone_number := "+3912345", status := "failed", room := none,
             participant_id := none, error := some "trunk misconfigured" } :=
  ⟨bridge_failure_behavior.1 ⟨5, "ffff0000", true, "", none, "trunk misconfigured", 0⟩
      "+3912345" "ST_x" none none rfl,
   bridge_failure_behavior.2
      (fun _ => ⟨5, "ffff0000", true, "", none, "trunk misconfigured", 0⟩)
      "ST_x" 0 "+3912345" [] rfl⟩

/-- C5: every invocation of `make_outbound_call` — for every room-name
argument (caller-supplied or absent) and every tenant-id argument (present or
absent) — performs exactly these steps in this order: (1) uses the
caller-supplied session name, generating `<prefix>-<timestamp>-<random>` when
none (or an empty one) is given; (2) issues the room-create request with that
name, idle-timeout 60, max participants 10 and metadata carrying the agent
name plus the tenant id exactly when a (truthy) one is present, continuing if
the create call fails; (3) sleeps the fixed 3-second grace period; (4) issues
exactly one bridge request carrying the trunk, destination number, target
room, fixed telephony identity and the wait-until-answered flag; (5) on
answer, records the wall-clock latency from bridge request to confirmed
answer, then closes the API handle. -/
theorem call_steps (env : Env) (phone trunk : String) (rn uid : Option String) :
    make_outbound_call env phone trunk rn uid =
      ((match env.sipResult with
        | some participant =>
            Except.ok (participant,
              if pyTruthy rn then rn.getD ""
              else genRoomName env.timestamp env.uniqueId)
        | none => Except.error env.sipError),
       (if env.createRoomOk then
          [Event.createRoom
             ⟨(if pyTruthy rn then rn.getD ""
               else genRoomName env.timestamp env.uniqueId), 60, 10,
              (if pyTruthy uid then
                 [("agent_name", "voice-assistant"), ("user_id", uid.getD "")]
               else [("agent_name", "voice-assistant")])⟩]
        else
          [Event.createRoom
             ⟨(if pyTruthy rn then rn.getD ""
               else genRoomName env.timestamp env.uniqueId), 60, 10,
              (if pyTruthy uid then
                 [("agent_name", "voice-assistant"), ("user_id", uid.getD "")]
               else [("agent_name", "voice-assistant")])⟩,
           Event.createRoomFailed env.createErr]) ++
       [Event.sleep 3,
        Event.bridge ⟨trunk, phone,
          (if pyTruthy rn then rn.getD ""
           else genRoomName env.timestamp env.uniqueId),
          PARTICIPANT_IDENTITY, PARTICIPANT_NAME, true, true⟩] ++
       (match env.sipResult with
        | some _ => [Event.recordLatency env.answerDelay, Event.apiClose]
        | none => [Event.apiClose])) := by
  cases hs : env.sipResult <;> cases hc : env.createRoomOk <;>
    simp [make_outbound_call, hs, hc]

/-- Witness for `call_steps` at two concrete answered calls: a campaign-style
invocation (no room name, no tenant id — exactly how `make_multiple_calls`
calls it) and an invocation with a caller-supplied room name and tenant id. -/
theorem call_steps_witness :
    make_outbound_call ⟨7, "deadbeef", true, "", some ⟨"PA", "SC", "r"⟩, "", 4⟩
        "+15550123" "ST_w" none none =
      (Except.ok (⟨"PA", "SC", "r"⟩, genRoomName 7 "deadbeef"),
       [Event.createRoom ⟨genRoomName 7 "deadbeef", 60, 10,
          [("agent_name", "voice-assistant")]⟩,
        Event.sleep 3,
        Event.bridge ⟨"ST_w", "+15550123", genRoomName 7 "deadbeef",
          PARTICIPANT_IDENTITY, PARTICIPANT_NAME, true, true⟩,
        Event.recordLatency 4, Event.apiClose]) ∧
    make_outbound_call ⟨7, "deadbeef", true, "", some ⟨"PA", "SC", "r"⟩, "", 4⟩
        "+15550123" "ST_w" (some "my-room") (some "tenant-1") =
      (Except.ok (⟨"PA", "SC", "r"⟩, "my-room"),
       [Event.createRoom ⟨"my-room", 60, 10,
          [("agent_name", "voice-assistant"), ("user_id", "tenant-1")]⟩,
        Event.sleep 3,
        Event.bridge ⟨"ST_w", "+15550123", "my-room",
          PARTICIPANT_IDENTITY, PARTICIPANT_NAME, true, true⟩,
        Event.recordLatency 4, Event.apiClose]) := by
  constructor
  · have h := call_steps ⟨7, "deadbeef", true, "", some ⟨"PA", "SC", "r"⟩, "", 4⟩
      "+15550123" "ST_w" none none
    simpa [pyTruthy] using h
  · have h := call_steps ⟨7, "deadbeef", true, "", some ⟨"PA", "SC", "r"⟩, "", 4⟩
      "+15550123" "ST_w" (some "my-room") (some "tenant-1")
    simpa [pyTruthy] using h

/-- C7 (amended): a failing room-create call does NOT abort the call attempt:
the failure is caught and logged, the grace-period sleep still runs and
exactly one bridge request is still issued. -/
theorem create_failure_not_aborting (env : Env) (phone trunk : String)
    (rn uid : Option String) (h : env.createRoomOk = false) :
    Event.createRoomFailed env.createErr ∈ (make_outbound_call env phone trunk rn uid).2 ∧
    Event.sleep 3 ∈ (make_outbound_call env phone trunk rn uid).2 ∧
    countBridges (make_outbound_call env phone trunk rn uid).2 = 1 := by
  cases hs : env.sipResult <;>
    simp [make_outbound_call, h, hs, countBridges, List.countP_append,
      List.countP_cons]

/-- C7 (counterexample to the claim as stated): with the room-create call
failing, `make_outbound_call` still issues a bridge request — the attempt is
not aborted ("Room might already exist, continue anyway"). -/
theorem create_failure_counterexample :
    countBridges (make_outbound_call
        ⟨42, "beefcafe", false, "room already exists", some ⟨"PA_7", "SCL_7", "r"⟩, "", 2⟩
        "+15557777" SIP_TRUNK_ID none none).2 = 1 ∧
    Event.createRoomFailed "room already exists" ∈ (make_outbound_call
        ⟨42, "beefcafe", false, "room already exists", some ⟨"PA_7", "SCL_7", "r"⟩, "", 2⟩
        "+15557777" SIP_TRUNK_ID none none).2 := by
  constructor
  · rfl
  · decide

/-- Witness for `create_failure_not_aborting` at a concrete failing create. -/
theorem create_failure_witness :
    Event.createRoomFailed "boom" ∈ (make_outbound_call
        ⟨9, "cafe0000", false, "boom", none, "no answer", 0⟩
        "+3955555" "ST_y" none none).2 ∧
    Event.sleep 3 ∈ (make_outbound_call
        ⟨9, "cafe0000", false, "boom", none, "no answer", 0⟩
        "+3955555" "ST_y" none none).2 ∧
    countBridges (make_outbound_call
        ⟨9, "cafe0000", false, "boom", none, "no answer", 0⟩
        "+3955555" "ST_y" none none).2 = 1 :=
  create_failure_not_aborting ⟨9, "cafe0000", false, "boom", none, "no answer", 0⟩
    "+3955555" "ST_y" none none rfl

/-- C10: the initiator and the controller agree on the fixed telephony-leg
identity "sip-caller": `PARTICIPANT_IDENTITY` is that constant, every bridge
request issued by `make_outbound_call` carries it, and the participant scan
of `transfer_to_human` succeeds on any participant list containing a
participant bridged under `PARTICIPANT_IDENTITY`. -/
theorem identity_agreement :
    PARTICIPANT_IDENTITY = "sip-caller" ∧
    (∀ (env : Env) (phone trunk : String) (rn uid : Option String)
        (req : CreateSIPParticipantRequest),
        Event.bridge req ∈ (make_outbound_call env phone trunk rn uid).2 →
        req.participant_identity = "sip-caller") ∧
    (∀ (ps : List Participant) (p : Participant),
        p ∈ ps → p.identity = PARTICIPANT_IDENTITY →
        (findSipParticipant ps).isSome = true) := by
  refine ⟨rfl, ?_, ?_⟩
  · intro env phone trunk rn uid req hmem
    cases hs : env.sipResult <;> cases hc : env.createRoomOk <;>
      simp [make_outbound_call, hs, hc] at hmem <;>
      simp [hmem, PARTICIPANT_IDENTITY]
  · intro ps p hp hid
    simp only [findSipParticipant, List.find?_isSome]
    exact ⟨p, hp, by simp [hid, PARTICIPANT_IDENTITY]⟩

/-- Witness for `identity_agreement`: a concrete bridge request from a
concrete call carries identity "sip-caller", and the controller's scan finds
a participant with that identity among other participants. -/
theorem identity_agreement_witness :
    ((⟨"ST_x", "+15551000", "room-w", "sip-caller", "Phone Caller", true, true⟩ :
        CreateSIPParticipantRequest).participant_identity = "sip-caller") ∧
    (findSipParticipant [⟨"agent-leg"⟩, ⟨"sip-caller"⟩]).isSome = true :=
  ⟨identity_agreement.2.1 ⟨3, "00001111", true, "", some ⟨"PA", "SC", "r"⟩, "", 1⟩
      "+15551000" "ST_x" (some "room-w") none
      ⟨"ST_x", "+15551000", "room-w", "sip-caller", "Phone Caller", true, true⟩
      (by decide),
   identity_agreement.2.2 [⟨"agent-leg"⟩, ⟨"sip-caller"⟩] ⟨"sip-caller"⟩
      (by decide) rfl⟩

/-- C3 (amended): `end_call` on a live session deletes it and returns the
success token "ended"; invoking it again never raises (the destroy failure on
the already-gone session is caught and the provider state is unchanged), but
it returns the error token "error" rather than a success result. -/
theorem end_call_idempotent_behavior (rooms : List String) (name : String)
    (ps : List Participant) (h : name ∈ rooms) :
    end_call (some ⟨⟨name, ps⟩⟩) ⟨rooms⟩ =
      ("ended", ⟨rooms.filter (fun r => r != name)⟩) ∧
    name ∉ rooms.filter (fun r => r != name) ∧
    end_call (some ⟨⟨name, ps⟩⟩) ⟨rooms.filter (fun r => r != name)⟩ =
      ("error", ⟨rooms.filter (fun r => r != name)⟩) := by
  have hnotin : name ∉ rooms.filter (fun r => r != name) := by
    simp [List.mem_filter]
  refine ⟨?_, hnotin, ?_⟩
  · simp [end_call, delete_room, h]
  · simp [end_call, delete_room, hnotin]

/-- C3 (counterexample to the claim as stated): the second `end_call` on the
same session does not raise, but it is not treated as success — it returns
the tool token "error", not "ended". -/
theorem end_call_counterexample :
    end_call (some ⟨⟨"outbound-call-1-aa", []⟩⟩) ⟨["outbound-call-1-aa"]⟩ =
      ("ended", ⟨[]⟩) ∧
    end_call (some ⟨⟨"outbound-call-1-aa", []⟩⟩) ⟨[]⟩ = ("error", ⟨[]⟩) := by
  decide

/-- Witness for `end_call_idempotent_behavior` on a concrete two-room world. -/
theorem end_call_idempotent_witness :
    end_call (some ⟨⟨"r1", []⟩⟩) ⟨["r1", "r2"]⟩ =
      ("ended", ⟨["r1", "r2"].filter (fun r => r != "r1")⟩) ∧
    "r1" ∉ ["r1", "r2"].filter (fun r => r != "r1") ∧
    end_call (some ⟨⟨"r1", []⟩⟩) ⟨["r1", "r2"].filter (fun r => r != "r1")⟩ =
      ("error", ⟨["r1", "r2"].filter (fun r => r != "r1")⟩) :=
  end_call_idempotent_behavior ["r1", "r2"] "r1" [] (by decide)

/-- C4: when no remote participant carries the fixed telephony identity
"sip-caller", `transfer_to_human` returns the failure token without issuing
any carrier transfer request, and the provider state is unchanged (the room
is not destroyed, so the session stays Active). -/
theorem transfer_no_leg (room : AgentRoom) (transferOk : Bool) (w : World)
    (h : ∀ p ∈ room.remote_participants, ¬ p.identity = "sip-caller") :
    transfer_to_human (some ⟨room⟩) transferOk w = ("error", [], w) := by
  have hfind : findSipParticipant room.remote_participants = none := by
    rw [findSipParticipant, List.find?_eq_none]
    intro x hx
    simpa using h x hx
  simp [transfer_to_human, hfind]

/-- Witness for `transfer_no_leg`: a session whose only remote participant is
the agent leg. -/
theorem transfer_no_leg_witness :
    transfer_to_human (some ⟨⟨"room-a", [⟨"agent-leg"⟩]⟩⟩) true ⟨["room-a"]⟩ =
      ("error", [], ⟨["room-a"]⟩) :=
  transfer_no_leg ⟨"room-a", [⟨"agent-leg"⟩]⟩ true ⟨["room-a"]⟩ (by decide)

/-- C8 (amended): each invocation of the shutdown callback `cleanup_and_save`
with a live session history and a healthy filesystem performs exactly one
transcript write; the callback carries no duplicate-invocation guard, so the
"exactly once per session" property holds only if the runtime delivers the
shutdown signal to the (once-registered) callback exactly once. -/
theorem cleanup_write_per_invocation (h : List (String × String)) (k : Nat) :
    cleanup_and_save (some h) true k = Except.ok (k + 1, false) := rfl

/-- C8 (counterexample to the claim as stated): two racing shutdown
invocations of `cleanup_and_save` perform two persistence writes for the same
session — there is no guard making the second invocation a no-op. -/
theorem cleanup_double_write_counterexample :
    cleanup_and_save (some [("user", "hello")]) true 0 = Except.ok (1, false) ∧
    cleanup_and_save (some [("user", "hello")]) true 1 = Except.ok (2, false) := by
  constructor <;> rfl

/-- C9: the shutdown callback never propagates an exception — for every
history (present, empty, or absent) and every filesystem behaviour it
returns normally; with no session history it skips the write, and a
filesystem failure is caught and only logged. -/
theorem cleanup_never_raises :
    (∀ (hist : Option (List (String × String))) (fsOk : Bool) (writes : Nat),
        (cleanup_and_save hist fsOk writes).isOk = true) ∧
    (∀ writes : Nat,
        cleanup_and_save (some []) true writes = Except.ok (writes + 1, false)) ∧
    (∀ writes : Nat,
        cleanup_and_save none true writes = Except.ok (writes, false)) ∧
    (∀ (hist : Option (List (String × String))) (writes : Nat),
        cleanup_and_save hist false writes = Except.ok (writes, true)) := by
  refine ⟨?_, fun _ => rfl, fun _ => rfl, fun _ _ => rfl⟩
  intro hist fsOk writes
  cases fsOk <;> cases hist <;> rfl

/-- C6 (amended): a generated session name has exactly the form
`outbound-call-<timestamp>-<suffix>`, and for two calls generated in the same
second (the concurrent case) the names collide exactly when the sampled
8-character random suffixes collide: distinct suffixes give distinct names,
and name equality forces suffix equality.  Absolute uniqueness therefore
holds only up to the randomness of the suffix, not unconditionally. -/
theorem room_name_uniqueness :
    (∀ (t : Nat) (u : String),
        genRoomName t u = "outbound-call-" ++ toString t ++ "-" ++ u) ∧
    (∀ (t : Nat) (u1 u2 : String),
        genRoomName t u1 = genRoomName t u2 → u1 = u2) ∧
    (∀ (t : Nat) (u1 u2 : String),
        u1 ≠ u2 → genRoomName t u1 ≠ genRoomName t u2) := by
  have hinj : ∀ (t : Nat) (u1 u2 : String),
      genRoomName t u1 = genRoomName t u2 → u1 = u2 := by
    intro t u1 u2 h
    have hd := congrArg String.data h
    simp only [genRoomName, String.data_append] at hd
    rw [List.append_right_inj] at hd
    exact String.ext hd
  exact ⟨fun t u => rfl, hinj, fun t u1 u2 hne h => hne (hinj t u1 u2 h)⟩

/-- C6 (counterexample to the claim as stated): two calls that sample the
same wall-clock second and the same 8-character random suffix generate
identical session names — colliding names are possible, uniqueness is not
absolute. -/
theorem room_name_collision_counterexample :
    (make_outbound_call
        ⟨1700000000, "1a2b3c4d", true, "", some ⟨"PA_1", "SCL_1", "r1"⟩, "", 1⟩
        "+15550000001" SIP_TRUNK_ID none none).1 =
      Except.ok (⟨"PA_1", "SCL_1", "r1"⟩, "outbound-call-1700000000-1a2b3c4d") ∧
    (make_outbound_call
        ⟨1700000000, "1a2b3c4d", true, "", some ⟨"PA_2", "SCL_2", "r2"⟩, "", 1⟩
        "+15550000002" SIP_TRUNK_ID none none).1 =
      Except.ok (⟨"PA_2", "SCL_2", "r2"⟩, "outbound-call-1700000000-1a2b3c4d") := by
  constructor <;> rfl

/-- Witness for `room_name_uniqueness`: distinct concrete suffixes in the
same second give distinct names. -/
theorem room_name_uniqueness_witness :
    ("aaaa0000" : String) ≠ "bbbb0000" ∧
    genRoomName 5 "aaaa0000" ≠ genRoomName 5 "bbbb0000" :=
  ⟨by decide, room_name_uniqueness.2.2 5 "aaaa0000" "bbbb0000" (by decide)⟩
